import Mathlib

/-!
Shallow embedding of the network beacon processor dispatch facade from
`beacon_node/network/src/network_beacon_processor/mod.rs`, together with the
delayed-lookup scheduler timing logic and the egress helpers, and proofs of
the testable properties of the specification.

Payload types that the facade treats as opaque (attestations, blocks, blob
sidecars, requests, ...) are embedded as plain tokens; the facade never
inspects them except where the source does (the aggregate's
`beacon_block_root` projection, and the non-empty count of a blob sidecar
list).
-/

/-- Opaque gossip message identifier (`MessageId` from `lighthouse_network`). -/
abbrev MessageId := Nat

/-- Opaque peer identifier (`PeerId` from `lighthouse_network`). -/
abbrev PeerId := Nat

/-- Opaque peer client description (`Client` from `lighthouse_network`). -/
abbrev Client := Nat

/-- Opaque per-peer RPC request identifier (`PeerRequestId`). -/
abbrev PeerRequestId := Nat

/-- Block root hash (`Hash256` from `types`). -/
abbrev Hash256 := Nat

/-- Attestation subnet identifier (`SubnetId` from `types`). -/
abbrev SubnetId := Nat

/-- Sync-committee subnet identifier (`SyncSubnetId` from `types`). -/
abbrev SyncSubnetId := Nat

/-- Time duration, in abstract units (`std::time::Duration`). -/
abbrev Duration := Nat

/-- Monotonic instant, in abstract units (`tokio::time::Instant`). -/
abbrev Instant := Nat

/-- Consensus slot number (`Slot` from `types`). -/
abbrev Slot := Nat

/-- Attestation data; the facade only ever projects `beacon_block_root`
(`types::AttestationData`). -/
structure AttestationData where
  beacon_block_root : Hash256
  deriving DecidableEq, Repr

/-- Unaggregated attestation (`types::Attestation`); opaque to the facade
except for its `data` field. -/
structure Attestation where
  data : AttestationData
  deriving DecidableEq, Repr

/-- Aggregate-and-proof message body (`types::AggregateAndProof`). -/
structure AggregateAndProof where
  aggregate : Attestation
  deriving DecidableEq, Repr

/-- Signed aggregate-and-proof (`types::SignedAggregateAndProof`); the facade
projects `message.aggregate.data.beacon_block_root`. -/
structure SignedAggregateAndProof where
  message : AggregateAndProof
  deriving DecidableEq, Repr

/-- Opaque signed beacon block (`types::SignedBeaconBlock`). -/
abbrev SignedBeaconBlock := Nat

/-- Opaque signed blob sidecar (`types::SignedBlobSidecar`). -/
abbrev SignedBlobSidecar := Nat

/-- Opaque blob sidecar held inside a fixed sidecar list
(`types::blob_sidecar::BlobSidecar`). -/
abbrev BlobSidecar := Nat

/-- Fixed-capacity list of optional blob sidecars
(`types::blob_sidecar::FixedBlobSidecarList`); the fixed capacity is
irrelevant to the facade, which only counts the non-empty entries. -/
abbrev FixedBlobSidecarList := List (Option BlobSidecar)

/-- Opaque sync-committee message (`types::SyncCommitteeMessage`). -/
abbrev SyncCommitteeMessage := Nat

/-- Opaque signed sync-committee contribution
(`types::SignedContributionAndProof`). -/
abbrev SignedContributionAndProof := Nat

/-- Opaque signed voluntary exit (`types::SignedVoluntaryExit`). -/
abbrev SignedVoluntaryExit := Nat

/-- Opaque proposer slashing (`types::ProposerSlashing`). -/
abbrev ProposerSlashing := Nat

/-- Opaque attester slashing (`types::AttesterSlashing`). -/
abbrev AttesterSlashing := Nat

/-- Opaque signed BLS-to-execution change
(`types::SignedBlsToExecutionChange`). -/
abbrev SignedBlsToExecutionChange := Nat

/-- Opaque light-client finality update (`types::LightClientFinalityUpdate`). -/
abbrev LightClientFinalityUpdate := Nat

/-- Opaque light-client optimistic update
(`types::LightClientOptimisticUpdate`). -/
abbrev LightClientOptimisticUpdate := Nat

/-- Opaque RPC block with its blobs
(`beacon_chain::block_verification_types::RpcBlock`). -/
abbrev RpcBlockPayload := Nat

/-- Opaque status handshake message (`lighthouse_network::rpc::StatusMessage`). -/
abbrev StatusMessage := Nat

/-- Opaque blocks-by-range RPC request
(`lighthouse_network::rpc::BlocksByRangeRequest`). -/
abbrev BlocksByRangeRequestPayload := Nat

/-- Opaque blocks-by-root RPC request
(`lighthouse_network::rpc::BlocksByRootRequest`). -/
abbrev BlocksByRootRequestPayload := Nat

/-- Opaque blobs-by-range RPC request
(`lighthouse_network::rpc::methods::BlobsByRangeRequest`). -/
abbrev BlobsByRangeRequestPayload := Nat

/-- Opaque blobs-by-root RPC request
(`lighthouse_network::rpc::methods::BlobsByRootRequest`). -/
abbrev BlobsByRootRequestPayload := Nat

/-- Opaque light-client bootstrap RPC request
(`lighthouse_network::rpc::LightClientBootstrapRequest`). -/
abbrev LightClientBootstrapRequestPayload := Nat

/-- Modelled from the spec: `BlockProcessType` from the sync manager
(`sync::manager::BlockProcessType`, not under `src/`); opaque to the facade. -/
abbrev BlockProcessType := Nat

/-- Opaque network-service message (`service::NetworkMessage`, not under
`src/`); the facade only forwards it. -/
abbrev NetworkMessage := Nat

/-- Modelled from the spec: the sync-channel message type
(`sync::SyncMessage`, not under `src/`). The spec fixes only the
`DelayedLookup { root, peers }` variant produced by the scheduler; `Other`
stands for the remaining variants, which the facade only forwards. -/
inductive SyncMessage where
  | DelayedLookup (block_root : Hash256) (peers : List PeerId)
  | Other (tag : Nat)
  deriving DecidableEq, Repr

/-- Modelled from the spec: the chain-segment process identity
(`sync_methods::ChainSegmentProcessId`, not under `src/`). The spec names a
range-sync batch identity and a back-sync batch identity
(`RangeBatchId { id }`, `BackSyncBatchId { id }`). -/
inductive ChainSegmentProcessId where
  | RangeBatchId (id : Nat)
  | BackSyncBatchId (id : Nat)
  deriving DecidableEq, Repr

/-- Execution-layer notification flag (`beacon_chain::NotifyExecutionLayer`),
passed by the chain-segment closure to segment processing. -/
inductive NotifyExecutionLayer where
  | Yes
  | No
  deriving DecidableEq, Repr

/-- Log severity of a message emitted by this layer (`slog` levels used in
`mod.rs`: `trace!`, `debug!`, `error!`, `crit!`). -/
inductive LogLevel where
  | trace
  | debug
  | error
  | crit
  deriving DecidableEq, Repr

/-- Package of one unaggregated attestation handed to the worker pool
(`beacon_processor::GossipAttestationPackage`; fields as constructed at
`mod.rs` lines 116-123). -/
structure GossipAttestationPackage where
  message_id : MessageId
  peer_id : PeerId
  attestation : Attestation
  subnet_id : SubnetId
  should_import : Bool
  seen_timestamp : Duration
  deriving DecidableEq, Repr

/-- Package of one aggregated attestation handed to the worker pool
(`beacon_processor::GossipAggregatePackage`; fields as constructed at
`mod.rs` lines 162-168). -/
structure GossipAggregatePackage where
  message_id : MessageId
  peer_id : PeerId
  aggregate : SignedAggregateAndProof
  beacon_block_root : Hash256
  seen_timestamp : Duration
  deriving DecidableEq, Repr

/-- Arguments with which the chain-segment processing closure invokes
`process_chain_segment` when it executes (`mod.rs` lines 468-482): the
process identity, the blocks, and the execution-layer notification flag it
computed from the sync-state snapshot. -/
structure ChainSegmentCall where
  process_id : ChainSegmentProcessId
  blocks : List RpcBlockPayload
  notify_execution_layer : NotifyExecutionLayer

/-- Work variants accepted by the beacon processor
(`beacon_processor::Work`), restricted to the variants the facade in
`mod.rs` constructs. Each variant records the data captured into its
processing closure at construction time; the deferred processing bodies
themselves (`process_gossip_attestation`, ...) live outside `src/` and are
not modelled, except that the chain-segment closure's observable choice of
execution-layer flag is kept as a function of the sync-state snapshot it
reads when it runs. -/
inductive Work where
  | GossipAttestation (attestation : GossipAttestationPackage)
  | GossipAggregate (aggregate : GossipAggregatePackage)
  | GossipBlock (message_id : MessageId) (peer_id : PeerId) (peer_client : Client)
      (block : SignedBeaconBlock) (seen_timestamp : Duration)
  | GossipSignedBlobSidecar (message_id : MessageId) (peer_id : PeerId)
      (peer_client : Client) (blob_index : Nat) (blob : SignedBlobSidecar)
      (seen_timestamp : Duration)
  | GossipSyncSignature (message_id : MessageId) (peer_id : PeerId)
      (sync_signature : SyncCommitteeMessage) (subnet_id : SyncSubnetId)
      (seen_timestamp : Duration)
  | GossipSyncContribution (message_id : MessageId) (peer_id : PeerId)
      (sync_contribution : SignedContributionAndProof) (seen_timestamp : Duration)
  | GossipVoluntaryExit (message_id : MessageId) (peer_id : PeerId)
      (voluntary_exit : SignedVoluntaryExit)
  | GossipProposerSlashing (message_id : MessageId) (peer_id : PeerId)
      (proposer_slashing : ProposerSlashing)
  | GossipAttesterSlashing (message_id : MessageId) (peer_id : PeerId)
      (attester_slashing : AttesterSlashing)
  | GossipBlsToExecutionChange (message_id : MessageId) (peer_id : PeerId)
      (bls_to_execution_change : SignedBlsToExecutionChange)
  | GossipLightClientFinalityUpdate (message_id : MessageId) (peer_id : PeerId)
      (light_client_finality_update : LightClientFinalityUpdate)
      (seen_timestamp : Duration)
  | GossipLightClientOptimisticUpdate (message_id : MessageId) (peer_id : PeerId)
      (light_client_optimistic_update : LightClientOptimisticUpdate)
      (seen_timestamp : Duration)
  | RpcBlock (block_root : Hash256) (block : RpcBlockPayload)
      (seen_timestamp : Duration) (process_type : BlockProcessType)
  | RpcBlobs (block_root : Hash256) (blobs : FixedBlobSidecarList)
      (seen_timestamp : Duration) (process_type : BlockProcessType)
  | ChainSegment (process_fn : Bool → ChainSegmentCall)
  | ChainSegmentBackfill (process_fn : Bool → ChainSegmentCall)
  | Status (peer_id : PeerId) (message : StatusMessage)
  | BlocksByRangeRequest (peer_id : PeerId) (request_id : PeerRequestId)
      (request : BlocksByRangeRequestPayload)
  | BlocksByRootsRequest (peer_id : PeerId) (request_id : PeerRequestId)
      (request : BlocksByRootRequestPayload)
  | BlobsByRangeRequest (peer_id : PeerId) (request_id : PeerRequestId)
      (request : BlobsByRangeRequestPayload)
  | BlobsByRootsRequest (peer_id : PeerId) (request_id : PeerRequestId)
      (request : BlobsByRootRequestPayload)
  | LightClientBootstrapRequest (peer_id : PeerId) (request_id : PeerRequestId)
      (request : LightClientBootstrapRequestPayload)

/-- Names of the work variants, for stating kind-level properties. -/
inductive WorkKind where
  | GossipAttestation
  | GossipAggregate
  | GossipBlock
  | GossipSignedBlobSidecar
  | GossipSyncSignature
  | GossipSyncContribution
  | GossipVoluntaryExit
  | GossipProposerSlashing
  | GossipAttesterSlashing
  | GossipBlsToExecutionChange
  | GossipLightClientFinalityUpdate
  | GossipLightClientOptimisticUpdate
  | RpcBlock
  | RpcBlobs
  | ChainSegment
  | ChainSegmentBackfill
  | Status
  | BlocksByRangeRequest
  | BlocksByRootsRequest
  | BlobsByRangeRequest
  | BlobsByRootsRequest
  | LightClientBootstrapRequest
  deriving DecidableEq, Repr

/-- Kind of a work item. -/
def Work.kind : Work → WorkKind
  | .GossipAttestation _ => .GossipAttestation
  | .GossipAggregate _ => .GossipAggregate
  | .GossipBlock _ _ _ _ _ => .GossipBlock
  | .GossipSignedBlobSidecar _ _ _ _ _ _ => .GossipSignedBlobSidecar
  | .GossipSyncSignature _ _ _ _ _ => .GossipSyncSignature
  | .GossipSyncContribution _ _ _ _ => .GossipSyncContribution
  | .GossipVoluntaryExit _ _ _ => .GossipVoluntaryExit
  | .GossipProposerSlashing _ _ _ => .GossipProposerSlashing
  | .GossipAttesterSlashing _ _ _ => .GossipAttesterSlashing
  | .GossipBlsToExecutionChange _ _ _ => .GossipBlsToExecutionChange
  | .GossipLightClientFinalityUpdate _ _ _ _ => .GossipLightClientFinalityUpdate
  | .GossipLightClientOptimisticUpdate _ _ _ _ => .GossipLightClientOptimisticUpdate
  | .RpcBlock _ _ _ _ => .RpcBlock
  | .RpcBlobs _ _ _ _ => .RpcBlobs
  | .ChainSegment _ => .ChainSegment
  | .ChainSegmentBackfill _ => .ChainSegmentBackfill
  | .Status _ _ => .Status
  | .BlocksByRangeRequest _ _ _ => .BlocksByRangeRequest
  | .BlocksByRootsRequest _ _ _ => .BlocksByRootsRequest
  | .BlobsByRangeRequest _ _ _ => .BlobsByRangeRequest
  | .BlobsByRootsRequest _ _ _ => .BlobsByRootsRequest
  | .LightClientBootstrapRequest _ _ _ => .LightClientBootstrapRequest

/-- Chain-segment processing closure carried by a work item, when the item
is a `ChainSegment` or `ChainSegmentBackfill` variant. -/
def Work.chainSegmentFn : Work → Option (Bool → ChainSegmentCall)
  | .ChainSegment f => some f
  | .ChainSegmentBackfill f => some f
  | _ => none

/-- Work event handed to the beacon processor
(`beacon_processor::WorkEvent`, aliased `BeaconWorkEvent` in `mod.rs`). -/
structure BeaconWorkEvent where
  drop_during_sync : Bool
  work : Work

/-- Rejection returned by a bounded try-send
(`tokio::sync::mpsc::error::TrySendError`): the channel is full or closed;
either way the unconsumed message is carried back to the caller. -/
inductive TrySendError (α : Type) where
  | full (value : α)
  | closed (value : α)

/-- Message carried back inside a try-send rejection. -/
def TrySendError.envelope : TrySendError α → α
  | .full a => a
  | .closed a => a

/-- Modelled from the spec: the bounded beacon-processor channel with
try-send semantics (`BeaconProcessorSend`, a wrapped bounded
`tokio::sync::mpsc::Sender`, lives outside `src/`). Rejection is `Closed`
when the receiver is gone (checked first, as in tokio), else `Full` when
the queue is at capacity; an accepted message is appended to the queue. -/
structure BoundedChannel (α : Type) where
  capacity : Nat
  queue : List α
  closed : Bool

/-- Non-blocking send on the bounded channel: `Closed` if the receiver is
gone, `Full` at capacity, otherwise append. The rejected message is carried
back in the error and the channel state is unchanged. -/
def BoundedChannel.trySend (ch : BoundedChannel α) (a : α) :
    Except (TrySendError α) Unit × BoundedChannel α :=
  if ch.closed then (.error (.closed a), ch)
  else if ch.queue.length < ch.capacity then
    (.ok (), { ch with queue := ch.queue ++ [a] })
  else (.error (.full a), ch)

/-- Unbounded fire-and-forget channel (`tokio::sync::mpsc::UnboundedSender`):
send fails only when the receiver is closed, carrying the message back. -/
structure UnboundedChannel (α : Type) where
  queue : List α
  closed : Bool

/-- Send on the unbounded channel: append unless closed. -/
def UnboundedChannel.send (ch : UnboundedChannel α) (a : α) :
    Except α (UnboundedChannel α) :=
  if ch.closed then .error a
  else .ok { ch with queue := ch.queue ++ [a] }

/-- Result of running a piece of Rust code that could in principle panic:
either a normal return value or a panic. Total Lean functions that never
produce `.panicked` model code that never panics. -/
inductive PanicOr (α : Type) where
  | panicked
  | ok (value : α)

/-- Semantics of Rust's `Result::unwrap_or_else`: a normal value on `Ok`,
the handler's value on `Err`; it never panics (unlike `Result::unwrap`,
which would produce `.panicked` on `Err`). -/
def exceptUnwrapOrElse (r : Except ε α) (f : ε → α) : PanicOr α :=
  match r with
  | .ok a => .ok a
  | .error e => .ok (f e)

/-- Dispatch facade state (`NetworkBeaconProcessor` in `mod.rs`). Only the
channel endpoints whose contents the submission operations and egress
helpers observably change are carried; the remaining fields of the Rust
struct (`duplicate_cache`, `chain`, `reprocess_tx`, `network_globals`,
`invalid_block_storage`, `delayed_lookup_peers`, `executor`, `log`) are
captured only inside the deferred processing bodies, which live outside
`src/` and are treated as opaque. -/
structure NetworkBeaconProcessor where
  beacon_processor_send : BoundedChannel BeaconWorkEvent
  network_tx : UnboundedChannel NetworkMessage
  sync_tx : UnboundedChannel SyncMessage

/-- Internal try-send of a work event to the beacon processor
(`mod.rs` lines 75-79). -/
def NetworkBeaconProcessor.try_send (self : NetworkBeaconProcessor)
    (event : BeaconWorkEvent) :
    Except (TrySendError BeaconWorkEvent) Unit × NetworkBeaconProcessor :=
  let (r, ch) := self.beacon_processor_send.trySend event
  (r, { self with beacon_processor_send := ch })

/-- Submission for an unaggregated attestation (`mod.rs` lines 82-128).
The constructed work item packages all inputs; the individual and batch
processing closures capture the packaged data and the reprocess channel. -/
def NetworkBeaconProcessor.send_unaggregated_attestation
    (self : NetworkBeaconProcessor) (message_id : MessageId) (peer_id : PeerId)
    (attestation : Attestation) (subnet_id : SubnetId) (should_import : Bool)
    (seen_timestamp : Duration) :
    Except (TrySendError BeaconWorkEvent) Unit × NetworkBeaconProcessor :=
  self.try_send
    { drop_during_sync := true
      work := Work.GossipAttestation
        { message_id := message_id
          peer_id := peer_id
          attestation := attestation
          subnet_id := subnet_id
          should_import := should_import
          seen_timestamp := seen_timestamp } }

/-- Submission for an aggregated attestation (`mod.rs` lines 131-173); the
package records the projection `aggregate.message.aggregate.data.beacon_block_root`. -/
def NetworkBeaconProcessor.send_aggregated_attestation
    (self : NetworkBeaconProcessor) (message_id : MessageId) (peer_id : PeerId)
    (aggregate : SignedAggregateAndProof) (seen_timestamp : Duration) :
    Except (TrySendError BeaconWorkEvent) Unit × NetworkBeaconProcessor :=
  let beacon_block_root := aggregate.message.aggregate.data.beacon_block_root
  self.try_send
    { drop_during_sync := true
      work := Work.GossipAggregate
        { message_id := message_id
          peer_id := peer_id
          aggregate := aggregate
          beacon_block_root := beacon_block_root
          seen_timestamp := seen_timestamp } }

/-- Submission for a gossip block (`mod.rs` lines 176-207); the async
processing closure captures the ids, client, block and timestamp (plus the
reprocess channel, duplicate cache and invalid-block storage it reads from
the shared facade when it runs). -/
def NetworkBeaconProcessor.send_gossip_beacon_block
    (self : NetworkBeaconProcessor) (message_id : MessageId) (peer_id : PeerId)
    (peer_client : Client) (block : SignedBeaconBlock) (seen_timestamp : Duration) :
    Except (TrySendError BeaconWorkEvent) Unit × NetworkBeaconProcessor :=
  self.try_send
    { drop_during_sync := false
      work := Work.GossipBlock message_id peer_id peer_client block seen_timestamp }

/-- Submission for a gossip blob sidecar (`mod.rs` lines 210-237). -/
def NetworkBeaconProcessor.send_gossip_blob_sidecar
    (self : NetworkBeaconProcessor) (message_id : MessageId) (peer_id : PeerId)
    (peer_client : Client) (blob_index : Nat) (blob : SignedBlobSidecar)
    (seen_timestamp : Duration) :
    Except (TrySendError BeaconWorkEvent) Unit × NetworkBeaconProcessor :=
  self.try_send
    { drop_during_sync := false
      work := Work.GossipSignedBlobSidecar message_id peer_id peer_client
        blob_index blob seen_timestamp }

/-- Submission for a sync-committee signature (`mod.rs` lines 240-263). -/
def NetworkBeaconProcessor.send_gossip_sync_signature
    (self : NetworkBeaconProcessor) (message_id : MessageId) (peer_id : PeerId)
    (sync_signature : SyncCommitteeMessage) (subnet_id : SyncSubnetId)
    (seen_timestamp : Duration) :
    Except (TrySendError BeaconWorkEvent) Unit × NetworkBeaconProcessor :=
  self.try_send
    { drop_during_sync := true
      work := Work.GossipSyncSignature message_id peer_id sync_signature
        subnet_id seen_timestamp }

/-- Submission for a sync-committee contribution (`mod.rs` lines 266-287). -/
def NetworkBeaconProcessor.send_gossip_sync_contribution
    (self : NetworkBeaconProcessor) (message_id : MessageId) (peer_id : PeerId)
    (sync_contribution : SignedContributionAndProof) (seen_timestamp : Duration) :
    Except (TrySendError BeaconWorkEvent) Unit × NetworkBeaconProcessor :=
  self.try_send
    { drop_during_sync := true
      work := Work.GossipSyncContribution message_id peer_id sync_contribution
        seen_timestamp }

/-- Submission for a voluntary exit (`mod.rs` lines 290-304). -/
def NetworkBeaconProcessor.send_gossip_voluntary_exit
    (self : NetworkBeaconProcessor) (message_id : MessageId) (peer_id : PeerId)
    (voluntary_exit : SignedVoluntaryExit) :
    Except (TrySendError BeaconWorkEvent) Unit × NetworkBeaconProcessor :=
  self.try_send
    { drop_during_sync := false
      work := Work.GossipVoluntaryExit message_id peer_id voluntary_exit }

/-- Submission for a proposer slashing (`mod.rs` lines 307-322). -/
def NetworkBeaconProcessor.send_gossip_proposer_slashing
    (self : NetworkBeaconProcessor) (message_id : MessageId) (peer_id : PeerId)
    (proposer_slashing : ProposerSlashing) :
    Except (TrySendError BeaconWorkEvent) Unit × NetworkBeaconProcessor :=
  self.try_send
    { drop_during_sync := false
      work := Work.GossipProposerSlashing message_id peer_id proposer_slashing }

/-- Submission for a light-client finality update (`mod.rs` lines 325-346). -/
def NetworkBeaconProcessor.send_gossip_light_client_finality_update
    (self : NetworkBeaconProcessor) (message_id : MessageId) (peer_id : PeerId)
    (light_client_finality_update : LightClientFinalityUpdate)
    (seen_timestamp : Duration) :
    Except (TrySendError BeaconWorkEvent) Unit × NetworkBeaconProcessor :=
  self.try_send
    { drop_during_sync := true
      work := Work.GossipLightClientFinalityUpdate message_id peer_id
        light_client_finality_update seen_timestamp }

/-- Submission for a light-client optimistic update (`mod.rs` lines 349-372). -/
def NetworkBeaconProcessor.send_gossip_light_client_optimistic_update
    (self : NetworkBeaconProcessor) (message_id : MessageId) (peer_id : PeerId)
    (light_client_optimistic_update : LightClientOptimisticUpdate)
    (seen_timestamp : Duration) :
    Except (TrySendError BeaconWorkEvent) Unit × NetworkBeaconProcessor :=
  self.try_send
    { drop_during_sync := true
      work := Work.GossipLightClientOptimisticUpdate message_id peer_id
        light_client_optimistic_update seen_timestamp }

/-- Submission for an attester slashing (`mod.rs` lines 375-390). -/
def NetworkBeaconProcessor.send_gossip_attester_slashing
    (self : NetworkBeaconProcessor) (message_id : MessageId) (peer_id : PeerId)
    (attester_slashing : AttesterSlashing) :
    Except (TrySendError BeaconWorkEvent) Unit × NetworkBeaconProcessor :=
  self.try_send
    { drop_during_sync := false
      work := Work.GossipAttesterSlashing message_id peer_id attester_slashing }

/-- Submission for a BLS-to-execution change (`mod.rs` lines 393-412). -/
def NetworkBeaconProcessor.send_gossip_bls_to_execution_change
    (self : NetworkBeaconProcessor) (message_id : MessageId) (peer_id : PeerId)
    (bls_to_execution_change : SignedBlsToExecutionChange) :
    Except (TrySendError BeaconWorkEvent) Unit × NetworkBeaconProcessor :=
  self.try_send
    { drop_during_sync := false
      work := Work.GossipBlsToExecutionChange message_id peer_id
        bls_to_execution_change }

/-- Submission for an RPC block (`mod.rs` lines 416-433). -/
def NetworkBeaconProcessor.send_rpc_beacon_block
    (self : NetworkBeaconProcessor) (block_root : Hash256)
    (block : RpcBlockPayload) (seen_timestamp : Duration)
    (process_type : BlockProcessType) :
    Except (TrySendError BeaconWorkEvent) Unit × NetworkBeaconProcessor :=
  self.try_send
    { drop_during_sync := false
      work := Work.RpcBlock block_root block seen_timestamp process_type }

/-- Submission for RPC blobs (`mod.rs` lines 437-458): if the sidecar list
holds zero non-empty entries the call returns success without sending
anything; otherwise it try-sends one `RpcBlobs` work event. -/
def NetworkBeaconProcessor.send_rpc_blobs
    (self : NetworkBeaconProcessor) (block_root : Hash256)
    (blobs : FixedBlobSidecarList) (seen_timestamp : Duration)
    (process_type : BlockProcessType) :
    Except (TrySendError BeaconWorkEvent) Unit × NetworkBeaconProcessor :=
  let blob_count := (blobs.filter fun b => b.isSome).length
  if blob_count = 0 then (.ok (), self)
  else
    self.try_send
      { drop_during_sync := false
        work := Work.RpcBlobs block_root blobs seen_timestamp process_type }

/-- Submission of a chain segment (`mod.rs` lines 461-497): the closure,
when it runs, reads whether the node is syncing finalized history and
suppresses the execution-layer notification exactly then; the work variant
is `ChainSegmentBackfill` when the process identity is a back-sync batch id,
`ChainSegment` otherwise. -/
def NetworkBeaconProcessor.send_chain_segment
    (self : NetworkBeaconProcessor) (process_id : ChainSegmentProcessId)
    (blocks : List RpcBlockPayload) :
    Except (TrySendError BeaconWorkEvent) Unit × NetworkBeaconProcessor :=
  let is_backfill := process_id matches ChainSegmentProcessId.BackSyncBatchId _
  let process_fn := fun (is_syncing_finalized : Bool) =>
    let notify_execution_layer :=
      if is_syncing_finalized then NotifyExecutionLayer.No
      else NotifyExecutionLayer.Yes
    ChainSegmentCall.mk process_id blocks notify_execution_layer
  let work :=
    if is_backfill then Work.ChainSegmentBackfill process_fn
    else Work.ChainSegment process_fn
  self.try_send { drop_during_sync := false, work := work }

/-- Submission of a status message (`mod.rs` lines 500-512). -/
def NetworkBeaconProcessor.send_status_message
    (self : NetworkBeaconProcessor) (peer_id : PeerId) (message : StatusMessage) :
    Except (TrySendError BeaconWorkEvent) Unit × NetworkBeaconProcessor :=
  self.try_send
    { drop_during_sync := false
      work := Work.Status peer_id message }

/-- Submission of a blocks-by-range request (`mod.rs` lines 515-537); the
closure additionally receives the pool's idle-signal handle when it runs. -/
def NetworkBeaconProcessor.send_blocks_by_range_request
    (self : NetworkBeaconProcessor) (peer_id : PeerId)
    (request_id : PeerRequestId) (request : BlocksByRangeRequestPayload) :
    Except (TrySendError BeaconWorkEvent) Unit × NetworkBeaconProcessor :=
  self.try_send
    { drop_during_sync := false
      work := Work.BlocksByRangeRequest peer_id request_id request }

/-- Submission of a blocks-by-roots request (`mod.rs` lines 540-562). -/
def NetworkBeaconProcessor.send_blocks_by_roots_request
    (self : NetworkBeaconProcessor) (peer_id : PeerId)
    (request_id : PeerRequestId) (request : BlocksByRootRequestPayload) :
    Except (TrySendError BeaconWorkEvent) Unit × NetworkBeaconProcessor :=
  self.try_send
    { drop_during_sync := false
      work := Work.BlocksByRootsRequest peer_id request_id request }

/-- Submission of a blobs-by-range request (`mod.rs` lines 565-579). -/
def NetworkBeaconProcessor.send_blobs_by_range_request
    (self : NetworkBeaconProcessor) (peer_id : PeerId)
    (request_id : PeerRequestId) (request : BlobsByRangeRequestPayload) :
    Except (TrySendError BeaconWorkEvent) Unit × NetworkBeaconProcessor :=
  self.try_send
    { drop_during_sync := false
      work := Work.BlobsByRangeRequest peer_id request_id request }

/-- Submission of a blobs-by-roots request (`mod.rs` lines 582-596). -/
def NetworkBeaconProcessor.send_blobs_by_roots_request
    (self : NetworkBeaconProcessor) (peer_id : PeerId)
    (request_id : PeerRequestId) (request : BlobsByRootRequestPayload) :
    Except (TrySendError BeaconWorkEvent) Unit × NetworkBeaconProcessor :=
  self.try_send
    { drop_during_sync := false
      work := Work.BlobsByRootsRequest peer_id request_id request }

/-- Submission of a light-client bootstrap request (`mod.rs` lines 599-613). -/
def NetworkBeaconProcessor.send_lightclient_bootstrap_request
    (self : NetworkBeaconProcessor) (peer_id : PeerId)
    (request_id : PeerRequestId) (request : LightClientBootstrapRequestPayload) :
    Except (TrySendError BeaconWorkEvent) Unit × NetworkBeaconProcessor :=
  self.try_send
    { drop_during_sync := true
      work := Work.LightClientBootstrapRequest peer_id request_id request }

/-- Egress helper to the sync channel (`mod.rs` lines 618-623): on failure
it logs at debug level and swallows the error via `unwrap_or_else`, so it
never panics. -/
def NetworkBeaconProcessor.send_sync_message (self : NetworkBeaconProcessor)
    (message : SyncMessage) : PanicOr (NetworkBeaconProcessor × List LogLevel) :=
  exceptUnwrapOrElse
    ((self.sync_tx.send message).map fun ch =>
      ({ self with sync_tx := ch }, ([] : List LogLevel)))
    (fun _ => (self, [LogLevel.debug]))

/-- Egress helper to the network channel (`mod.rs` lines 628-633): on
failure it logs at debug level and swallows the error via `unwrap_or_else`,
so it never panics. -/
def NetworkBeaconProcessor.send_network_message (self : NetworkBeaconProcessor)
    (message : NetworkMessage) : PanicOr (NetworkBeaconProcessor × List LogLevel) :=
  exceptUnwrapOrElse
    ((self.network_tx.send message).map fun ch =>
      ({ self with network_tx := ch }, ([] : List LogLevel)))
    (fun _ => (self, [LogLevel.debug]))

/-- Delayed-lookup registry contents: block roots with the peers that
advertised them (`delayed_lookup_peers` in `mod.rs`; the LRU bookkeeping is
irrelevant to the scheduler-tick claims). -/
abbrev DelayedLookupRegistry := List (Hash256 × List PeerId)

/-- First wake instant of the delayed-lookup scheduler (`mod.rs` lines
659-680): with `delay` the configured intra-slot lookup delay, when both
slot-clock reads succeed the wake is `now + duration_to_next_slot + delay`
if the elapsed seconds exceed the delay and `now + (delay - elapsed)`
otherwise; when either read yields no value, a critical message is logged
and the wake is `now`. -/
def delayedLookupIntervalStart (now : Instant) (delay : Duration)
    (duration_to_next_slot : Option Duration)
    (seconds_from_current_slot_start : Option Duration) :
    Instant × List LogLevel :=
  match duration_to_next_slot, seconds_from_current_slot_start with
  | some d, some seconds_elapsed =>
    let duration_until_start :=
      if seconds_elapsed > delay then d + delay
      else delay - seconds_elapsed
    (now + duration_until_start, [])
  | _, _ => (now, [LogLevel.crit])

/-- Modelled from the spec: `poll_delayed_lookups` (in `gossip_methods.rs`,
not under `src/`) drains the registry atomically and forwards one
`DelayedLookup { root, peers }` message per drained entry to the sync
channel. -/
def poll_delayed_lookups (slot : Slot) (registry : DelayedLookupRegistry) :
    DelayedLookupRegistry × List SyncMessage :=
  let _ := slot
  ([], registry.map fun e => SyncMessage.DelayedLookup e.1 e.2)

/-- One tick of the delayed-lookup scheduler loop (`mod.rs` lines 683-691):
if the slot clock yields no slot, an error is logged and the tick is
skipped (`continue`), leaving the registry untouched and issuing no
messages; otherwise a trace message is logged and the delayed lookups are
polled for that slot. -/
def schedulerTick (clock_slot : Option Slot) (registry : DelayedLookupRegistry) :
    DelayedLookupRegistry × List SyncMessage × List LogLevel :=
  match clock_slot with
  | none => (registry, [], [LogLevel.error])
  | some slot =>
    let (registry1, msgs) := poll_delayed_lookups slot registry
    (registry1, msgs, [LogLevel.trace])

/-- Scheduler loop over a finite prefix of ticks, each tick seeing the slot
clock's reading at that tick; accumulates the emitted sync messages and
logs (`mod.rs` lines 683-691, the `loop`). -/
def schedulerRun : List (Option Slot) → DelayedLookupRegistry →
    DelayedLookupRegistry × List SyncMessage × List LogLevel
  | [], registry => (registry, [], [])
  | t :: rest, registry =>
    let (registry1, msgs, logs) := schedulerTick t registry
    let (registry2, msgs1, logs1) := schedulerRun rest registry1
    (registry2, msgs ++ msgs1, logs ++ logs1)

/-- One call to the dispatch facade, uniformly over the twenty-one
submission operations of `mod.rs`, each constructor carrying that
operation's inputs. -/
inductive SubmissionCall where
  | unaggregatedAttestation (message_id : MessageId) (peer_id : PeerId)
      (attestation : Attestation) (subnet_id : SubnetId) (should_import : Bool)
      (seen_timestamp : Duration)
  | aggregatedAttestation (message_id : MessageId) (peer_id : PeerId)
      (aggregate : SignedAggregateAndProof) (seen_timestamp : Duration)
  | gossipBeaconBlock (message_id : MessageId) (peer_id : PeerId)
      (peer_client : Client) (block : SignedBeaconBlock) (seen_timestamp : Duration)
  | gossipBlobSidecar (message_id : MessageId) (peer_id : PeerId)
      (peer_client : Client) (blob_index : Nat) (blob : SignedBlobSidecar)
      (seen_timestamp : Duration)
  | gossipSyncSignature (message_id : MessageId) (peer_id : PeerId)
      (sync_signature : SyncCommitteeMessage) (subnet_id : SyncSubnetId)
      (seen_timestamp : Duration)
  | gossipSyncContribution (message_id : MessageId) (peer_id : PeerId)
      (sync_contribution : SignedContributionAndProof) (seen_timestamp : Duration)
  | gossipVoluntaryExit (message_id : MessageId) (peer_id : PeerId)
      (voluntary_exit : SignedVoluntaryExit)
  | gossipProposerSlashing (message_id : MessageId) (peer_id : PeerId)
      (proposer_slashing : ProposerSlashing)
  | gossipLightClientFinalityUpdate (message_id : MessageId) (peer_id : PeerId)
      (light_client_finality_update : LightClientFinalityUpdate)
      (seen_timestamp : Duration)
  | gossipLightClientOptimisticUpdate (message_id : MessageId) (peer_id : PeerId)
      (light_client_optimistic_update : LightClientOptimisticUpdate)
      (seen_timestamp : Duration)
  | gossipAttesterSlashing (message_id : MessageId) (peer_id : PeerId)
      (attester_slashing : AttesterSlashing)
  | gossipBlsToExecutionChange (message_id : MessageId) (peer_id : PeerId)
      (bls_to_execution_change : SignedBlsToExecutionChange)
  | rpcBeaconBlock (block_root : Hash256) (block : RpcBlockPayload)
      (seen_timestamp : Duration) (process_type : BlockProcessType)
  | rpcBlobs (block_root : Hash256) (blobs : FixedBlobSidecarList)
      (seen_timestamp : Duration) (process_type : BlockProcessType)
  | chainSegment (process_id : ChainSegmentProcessId) (blocks : List RpcBlockPayload)
  | statusMessage (peer_id : PeerId) (message : StatusMessage)
  | blocksByRangeRequest (peer_id : PeerId) (request_id : PeerRequestId)
      (request : BlocksByRangeRequestPayload)
  | blocksByRootsRequest (peer_id : PeerId) (request_id : PeerRequestId)
      (request : BlocksByRootRequestPayload)
  | blobsByRangeRequest (peer_id : PeerId) (request_id : PeerRequestId)
      (request : BlobsByRangeRequestPayload)
  | blobsByRootsRequest (peer_id : PeerId) (request_id : PeerRequestId)
      (request : BlobsByRootRequestPayload)
  | lightclientBootstrapRequest (peer_id : PeerId) (request_id : PeerRequestId)
      (request : LightClientBootstrapRequestPayload)

/-- Dispatch of a submission call to the matching facade operation. -/
def submit (self : NetworkBeaconProcessor) :
    SubmissionCall → Except (TrySendError BeaconWorkEvent) Unit × NetworkBeaconProcessor
  | .unaggregatedAttestation a b c d e f =>
    self.send_unaggregated_attestation a b c d e f
  | .aggregatedAttestation a b c d => self.send_aggregated_attestation a b c d
  | .gossipBeaconBlock a b c d e => self.send_gossip_beacon_block a b c d e
  | .gossipBlobSidecar a b c d e f => self.send_gossip_blob_sidecar a b c d e f
  | .gossipSyncSignature a b c d e => self.send_gossip_sync_signature a b c d e
  | .gossipSyncContribution a b c d => self.send_gossip_sync_contribution a b c d
  | .gossipVoluntaryExit a b c => self.send_gossip_voluntary_exit a b c
  | .gossipProposerSlashing a b c => self.send_gossip_proposer_slashing a b c
  | .gossipLightClientFinalityUpdate a b c d =>
    self.send_gossip_light_client_finality_update a b c d
  | .gossipLightClientOptimisticUpdate a b c d =>
    self.send_gossip_light_client_optimistic_update a b c d
  | .gossipAttesterSlashing a b c => self.send_gossip_attester_slashing a b c
  | .gossipBlsToExecutionChange a b c => self.send_gossip_bls_to_execution_change a b c
  | .rpcBeaconBlock a b c d => self.send_rpc_beacon_block a b c d
  | .rpcBlobs a b c d => self.send_rpc_blobs a b c d
  | .chainSegment a b => self.send_chain_segment a b
  | .statusMessage a b => self.send_status_message a b
  | .blocksByRangeRequest a b c => self.send_blocks_by_range_request a b c
  | .blocksByRootsRequest a b c => self.send_blocks_by_roots_request a b c
  | .blobsByRangeRequest a b c => self.send_blobs_by_range_request a b c
  | .blobsByRootsRequest a b c => self.send_blobs_by_roots_request a b c
  | .lightclientBootstrapRequest a b c => self.send_lightclient_bootstrap_request a b c

/-- Work kind that a submission call is specified to produce (the kind of
the facade operation, with the chain-segment variant selected by the
process identity). -/
def SubmissionCall.workKind : SubmissionCall → WorkKind
  | .unaggregatedAttestation .. => .GossipAttestation
  | .aggregatedAttestation .. => .GossipAggregate
  | .gossipBeaconBlock .. => .GossipBlock
  | .gossipBlobSidecar .. => .GossipSignedBlobSidecar
  | .gossipSyncSignature .. => .GossipSyncSignature
  | .gossipSyncContribution .. => .GossipSyncContribution
  | .gossipVoluntaryExit .. => .GossipVoluntaryExit
  | .gossipProposerSlashing .. => .GossipProposerSlashing
  | .gossipLightClientFinalityUpdate .. => .GossipLightClientFinalityUpdate
  | .gossipLightClientOptimisticUpdate .. => .GossipLightClientOptimisticUpdate
  | .gossipAttesterSlashing .. => .GossipAttesterSlashing
  | .gossipBlsToExecutionChange .. => .GossipBlsToExecutionChange
  | .rpcBeaconBlock .. => .RpcBlock
  | .rpcBlobs .. => .RpcBlobs
  | .chainSegment process_id _ =>
    if process_id matches ChainSegmentProcessId.BackSyncBatchId _ then
      .ChainSegmentBackfill
    else .ChainSegment
  | .statusMessage .. => .Status
  | .blocksByRangeRequest .. => .BlocksByRangeRequest
  | .blocksByRootsRequest .. => .BlocksByRootsRequest
  | .blobsByRangeRequest .. => .BlobsByRangeRequest
  | .blobsByRootsRequest .. => .BlobsByRootsRequest
  | .lightclientBootstrapRequest .. => .LightClientBootstrapRequest

/-- Whether a submission call is an RpcBlobs submission whose sidecar list
has zero non-empty entries (the single content-level short-circuit of the
facade). -/
def SubmissionCall.isEmptyRpcBlobs : SubmissionCall → Bool
  | .rpcBlobs _ blobs _ _ => (blobs.filter fun b => b.isSome).length = 0
  | _ => false

/-- Drop-during-sync value specified for each work kind by the table in
section 4.5 of the specification: true exactly for gossip attestation,
gossip aggregate, gossip sync signature, gossip sync contribution, gossip
light-client finality update, gossip light-client optimistic update, and
the light-client bootstrap RPC request. This definition follows the spec's
words, to be compared with the envelopes the source-derived operations
build. -/
def specDropDuringSync : WorkKind → Bool
  | .GossipAttestation => true
  | .GossipAggregate => true
  | .GossipSyncSignature => true
  | .GossipSyncContribution => true
  | .GossipLightClientFinalityUpdate => true
  | .GossipLightClientOptimisticUpdate => true
  | .LightClientBootstrapRequest => true
  | _ => false

/-- Envelopes newly delivered to the beacon-processor channel between two
facade states. -/
def newEnvelopes (s s1 : NetworkBeaconProcessor) : List BeaconWorkEvent :=
  s1.beacon_processor_send.queue.drop s.beacon_processor_send.queue.length

/-- Envelope carried back by a rejected try-send, as a list (empty on
success). -/
def rejectedEnvelopes (r : Except (TrySendError BeaconWorkEvent) Unit) :
    List BeaconWorkEvent :=
  match r with
  | .ok _ => []
  | .error e => [e.envelope]

/-- Envelopes a submission call observably built: those it delivered to the
beacon-processor channel plus the one carried back inside a rejection. -/
def observedEnvelopes (self : NetworkBeaconProcessor) (call : SubmissionCall) :
    List BeaconWorkEvent :=
  newEnvelopes self (submit self call).2 ++ rejectedEnvelopes (submit self call).1

theorem BoundedChannel.trySend_cases {α : Type} (ch : BoundedChannel α) (a : α) :
    ch.trySend a = (.ok (), { ch with queue := ch.queue ++ [a] })
      ∨ ∃ e : TrySendError α, ch.trySend a = (.error e, ch) ∧ e.envelope = a := by
  by_cases hc : ch.closed
  · exact Or.inr ⟨.closed a, by simp [BoundedChannel.trySend, hc], rfl⟩
  · by_cases hl : ch.queue.length < ch.capacity
    · exact Or.inl (by simp [BoundedChannel.trySend, hc, hl])
    · exact Or.inr ⟨.full a, by simp [BoundedChannel.trySend, hc, hl], rfl⟩

theorem NetworkBeaconProcessor.try_send_cases (self : NetworkBeaconProcessor)
    (event : BeaconWorkEvent) :
    ((self.try_send event).1 = .ok ()
       ∧ (self.try_send event).2.beacon_processor_send.queue
           = self.beacon_processor_send.queue ++ [event]
       ∧ (self.try_send event).2.network_tx = self.network_tx
       ∧ (self.try_send event).2.sync_tx = self.sync_tx)
    ∨ ∃ e : TrySendError BeaconWorkEvent,
        (self.try_send event).1 = .error e
        ∧ (self.try_send event).2 = self ∧ e.envelope = event := by
  rcases BoundedChannel.trySend_cases self.beacon_processor_send event with h | ⟨e, h, he⟩
  · exact Or.inl (by simp [NetworkBeaconProcessor.try_send, h])
  · refine Or.inr ⟨e, ?_, ?_, he⟩
    · simp [NetworkBeaconProcessor.try_send, h]
    · simp [NetworkBeaconProcessor.try_send, h]

/-- Atomicity of a single try-send: on success the queue grows by exactly
the sent event; on failure the facade state is unchanged and the event is
carried back. -/
theorem NetworkBeaconProcessor.try_send_atomic (self : NetworkBeaconProcessor)
    (event : BeaconWorkEvent) :
    ((self.try_send event).1 = .ok () →
        (self.try_send event).2.beacon_processor_send.queue
          = self.beacon_processor_send.queue ++ [event])
    ∧ (∀ e, (self.try_send event).1 = .error e → (self.try_send event).2 = self) := by
  rcases self.try_send_cases event with ⟨hok, hq, -, -⟩ | ⟨e, herr, hsnd, -⟩
  · refine ⟨fun _ => hq, fun e h => ?_⟩
    rw [hok] at h
    cases h
  · refine ⟨fun h => ?_, fun _ _ => hsnd⟩
    rw [herr] at h
    cases h

/-- Every envelope a single try-send observably builds is the sent event:
on success it is the one new queue entry, on failure the one carried back. -/
theorem NetworkBeaconProcessor.observed_try_send (self : NetworkBeaconProcessor)
    (event : BeaconWorkEvent) :
    newEnvelopes self (self.try_send event).2 ++
      rejectedEnvelopes (self.try_send event).1 = [event] := by
  rcases self.try_send_cases event with ⟨hok, hq, -, -⟩ | ⟨e, herr, hsnd, he⟩
  · simp [newEnvelopes, rejectedEnvelopes, hq, hok, List.drop_left]
  · simp [newEnvelopes, rejectedEnvelopes, hsnd, herr, he, List.drop_length]

/-- Rejection of a single try-send on a full, open channel: the error is
`full`, carrying the event, and the state is unchanged. -/
theorem NetworkBeaconProcessor.try_send_full (self : NetworkBeaconProcessor)
    (event : BeaconWorkEvent)
    (hfull : ¬ self.beacon_processor_send.queue.length
        < self.beacon_processor_send.capacity)
    (hopen : self.beacon_processor_send.closed = false) :
    self.try_send event = (.error (.full event), self) := by
  simp [NetworkBeaconProcessor.try_send, BoundedChannel.trySend, hopen, hfull]

/-- Rejection of a single try-send on a closed channel: the error is
`closed`, carrying the event, and the state is unchanged. -/
theorem NetworkBeaconProcessor.try_send_closed (self : NetworkBeaconProcessor)
    (event : BeaconWorkEvent)
    (hclosed : self.beacon_processor_send.closed = true) :
    self.try_send event = (.error (.closed event), self) := by
  simp [NetworkBeaconProcessor.try_send, BoundedChannel.trySend, hclosed]

/-- Atomicity shape shared by every submission operation that consists of a
single unconditional try-send; `p` and `q` stand for the short-circuit
discriminator of the claim statement, with `q` (the short-circuit side)
impossible for these operations. -/
theorem submit_atomic_generic (self : NetworkBeaconProcessor) (event : BeaconWorkEvent)
    {p q : Prop} (hnq : ¬ q) :
    ((self.try_send event).1 = .ok () → p →
       ∃ env, (self.try_send event).2.beacon_processor_send.queue
           = self.beacon_processor_send.queue ++ [env]
         ∧ newEnvelopes self (self.try_send event).2 = [env])
    ∧ ((self.try_send event).1 = .ok () → q →
       (self.try_send event).2 = self
         ∧ newEnvelopes self (self.try_send event).2 = [])
    ∧ (∀ e, (self.try_send event).1 = .error e →
       (self.try_send event).2 = self
         ∧ newEnvelopes self (self.try_send event).2 = []) := by
  rcases self.try_send_cases event with ⟨hok, hq, -, -⟩ | ⟨e, herr, hsnd, -⟩
  · refine ⟨fun _ _ => ⟨event, hq, ?_⟩, fun _ h => absurd h hnq, fun e h => ?_⟩
    · simp [newEnvelopes, hq, List.drop_left]
    · rw [hok] at h
      exact Except.noConfusion h
  · have hz : newEnvelopes self (self.try_send event).2 = [] := by
      simp [newEnvelopes, hsnd, List.drop_length]
    refine ⟨fun h => ?_, fun _ h => absurd h hnq, fun e1 h => ⟨hsnd, hz⟩⟩
    rw [herr] at h
    exact Except.noConfusion h

/-- Facade state with an open, empty beacon-processor channel of capacity 4
and open outbound channels, used to instantiate theorems at concrete inputs. -/
def sampleProcessor : NetworkBeaconProcessor where
  beacon_processor_send := { capacity := 4, queue := [], closed := false }
  network_tx := { queue := [], closed := false }
  sync_tx := { queue := [], closed := false }

/-- Six-entry all-empty blob sidecar list (scenario S2 of the spec). -/
def emptyBlobs : FixedBlobSidecarList := [none, none, none, none, none, none]

/-- RpcBlobs submission whose sidecar list has zero non-empty entries. -/
def emptyBlobsCall : SubmissionCall := .rpcBlobs 0 emptyBlobs 0 0

/-- Voluntary-exit submission at concrete inputs (scenario S4 of the spec). -/
def exitCall : SubmissionCall := .gossipVoluntaryExit 1 2 3

/-- C1 (amended): for every submission operation and every input, a call
that returns success delivered exactly one work envelope to the
beacon-processor channel — except an RpcBlobs submission whose sidecar list
has zero non-empty entries, which returns success and delivers zero — and a
call that returns an error delivered zero envelopes and left the facade
state unchanged. -/
theorem submission_atomicity (self : NetworkBeaconProcessor) (call : SubmissionCall) :
    ((submit self call).1 = .ok () → call.isEmptyRpcBlobs = false →
       ∃ env, (submit self call).2.beacon_processor_send.queue
           = self.beacon_processor_send.queue ++ [env]
         ∧ newEnvelopes self (submit self call).2 = [env])
    ∧ ((submit self call).1 = .ok () → call.isEmptyRpcBlobs = true →
       (submit self call).2 = self
         ∧ newEnvelopes self (submit self call).2 = [])
    ∧ (∀ e, (submit self call).1 = .error e →
       (submit self call).2 = self
         ∧ newEnvelopes self (submit self call).2 = []) := by
  cases call
  case rpcBlobs block_root blobs seen_timestamp process_type =>
    by_cases h0 : (List.filter (fun b => b.isSome) blobs).length = 0
    · have hs : submit self (.rpcBlobs block_root blobs seen_timestamp process_type)
          = (.ok (), self) := by
        simp [submit, NetworkBeaconProcessor.send_rpc_blobs, h0]
      have hemp : (SubmissionCall.rpcBlobs block_root blobs seen_timestamp
          process_type).isEmptyRpcBlobs = true := by
        simp [SubmissionCall.isEmptyRpcBlobs, h0]
      rw [hs]
      simp [hemp, newEnvelopes, List.drop_length]
    · have hs : submit self (.rpcBlobs block_root blobs seen_timestamp process_type)
          = self.try_send
              { drop_during_sync := false,
                work := Work.RpcBlobs block_root blobs seen_timestamp process_type } := by
        simp [submit, NetworkBeaconProcessor.send_rpc_blobs, h0]
      have hemp : (SubmissionCall.rpcBlobs block_root blobs seen_timestamp
          process_type).isEmptyRpcBlobs = false := by
        simp [SubmissionCall.isEmptyRpcBlobs, h0]
      rw [hs, hemp]
      exact submit_atomic_generic self _ (by simp)
  all_goals
    simp only [submit, NetworkBeaconProcessor.send_unaggregated_attestation,
      NetworkBeaconProcessor.send_aggregated_attestation,
      NetworkBeaconProcessor.send_gossip_beacon_block,
      NetworkBeaconProcessor.send_gossip_blob_sidecar,
      NetworkBeaconProcessor.send_gossip_sync_signature,
      NetworkBeaconProcessor.send_gossip_sync_contribution,
      NetworkBeaconProcessor.send_gossip_voluntary_exit,
      NetworkBeaconProcessor.send_gossip_proposer_slashing,
      NetworkBeaconProcessor.send_gossip_light_client_finality_update,
      NetworkBeaconProcessor.send_gossip_light_client_optimistic_update,
      NetworkBeaconProcessor.send_gossip_attester_slashing,
      NetworkBeaconProcessor.send_gossip_bls_to_execution_change,
      NetworkBeaconProcessor.send_rpc_beacon_block,
      NetworkBeaconProcessor.send_chain_segment,
      NetworkBeaconProcessor.send_status_message,
      NetworkBeaconProcessor.send_blocks_by_range_request,
      NetworkBeaconProcessor.send_blocks_by_roots_request,
      NetworkBeaconProcessor.send_blobs_by_range_request,
      NetworkBeaconProcessor.send_blobs_by_roots_request,
      NetworkBeaconProcessor.send_lightclient_bootstrap_request,
      SubmissionCall.isEmptyRpcBlobs]
  all_goals exact submit_atomic_generic self _ (by simp)

/-- C1 counterexample: submitting RpcBlobs with an all-empty six-entry
sidecar list on an open, non-full channel returns success yet delivers zero
envelopes to the beacon-processor channel, refuting the claim that every
successful submission delivers exactly one envelope. -/
theorem submission_atomicity_counterexample :
    (submit sampleProcessor emptyBlobsCall).1 = .ok ()
    ∧ newEnvelopes sampleProcessor (submit sampleProcessor emptyBlobsCall).2 = []
    ∧ (submit sampleProcessor emptyBlobsCall).2 = sampleProcessor :=
  ⟨rfl, rfl, rfl⟩

/-- C1 witness: the amended atomicity theorem applied to a voluntary-exit
submission on the sample facade state yields the single delivered envelope. -/
theorem submission_atomicity_witness :
    ∃ env, (submit sampleProcessor exitCall).2.beacon_processor_send.queue
        = sampleProcessor.beacon_processor_send.queue ++ [env]
      ∧ newEnvelopes sampleProcessor (submit sampleProcessor exitCall).2 = [env] :=
  (submission_atomicity sampleProcessor exitCall).1 rfl rfl

/-- C2: every envelope built by a submission operation carries the
drop-during-sync flag fixed by the section 4.5 table for its work kind —
true exactly for gossip attestation, gossip aggregate, gossip sync
signature, gossip sync contribution, the two gossip light-client updates,
and the light-client bootstrap RPC request — and that kind is the
operation's kind; the flag is independent of the payload contents, over
which this statement quantifies. -/
theorem drop_during_sync_fidelity (self : NetworkBeaconProcessor)
    (call : SubmissionCall) (env : BeaconWorkEvent)
    (h : env ∈ observedEnvelopes self call) :
    env.drop_during_sync = specDropDuringSync env.work.kind
    ∧ env.work.kind = call.workKind := by
  cases call
  case rpcBlobs block_root blobs seen_timestamp process_type =>
    by_cases h0 : (List.filter (fun b => b.isSome) blobs).length = 0
    · exfalso
      simp [observedEnvelopes, submit, NetworkBeaconProcessor.send_rpc_blobs, h0,
        newEnvelopes, rejectedEnvelopes, List.drop_length] at h
    · simp only [observedEnvelopes, submit,
        NetworkBeaconProcessor.send_rpc_blobs, h0, if_false, if_neg,
        not_false_iff] at h
      rw [NetworkBeaconProcessor.observed_try_send] at h
      simp only [List.mem_singleton] at h
      subst h
      simp [Work.kind, specDropDuringSync, SubmissionCall.workKind]
  case chainSegment process_id blocks =>
    cases process_id <;>
      (simp only [observedEnvelopes, submit,
         NetworkBeaconProcessor.send_chain_segment] at h
       rw [NetworkBeaconProcessor.observed_try_send] at h
       simp only [List.mem_singleton] at h
       subst h
       simp [Work.kind, specDropDuringSync, SubmissionCall.workKind])
  all_goals
    simp only [observedEnvelopes, submit,
      NetworkBeaconProcessor.send_unaggregated_attestation,
      NetworkBeaconProcessor.send_aggregated_attestation,
      NetworkBeaconProcessor.send_gossip_beacon_block,
      NetworkBeaconProcessor.send_gossip_blob_sidecar,
      NetworkBeaconProcessor.send_gossip_sync_signature,
      NetworkBeaconProcessor.send_gossip_sync_contribution,
      NetworkBeaconProcessor.send_gossip_voluntary_exit,
      NetworkBeaconProcessor.send_gossip_proposer_slashing,
      NetworkBeaconProcessor.send_gossip_light_client_finality_update,
      NetworkBeaconProcessor.send_gossip_light_client_optimistic_update,
      NetworkBeaconProcessor.send_gossip_attester_slashing,
      NetworkBeaconProcessor.send_gossip_bls_to_execution_change,
      NetworkBeaconProcessor.send_rpc_beacon_block,
      NetworkBeaconProcessor.send_status_message,
      NetworkBeaconProcessor.send_blocks_by_range_request,
      NetworkBeaconProcessor.send_blocks_by_roots_request,
      NetworkBeaconProcessor.send_blobs_by_range_request,
      NetworkBeaconProcessor.send_blobs_by_roots_request,
      NetworkBeaconProcessor.send_lightclient_bootstrap_request] at h
  all_goals rw [NetworkBeaconProcessor.observed_try_send] at h
  all_goals simp only [List.mem_singleton] at h
  all_goals subst h
  all_goals simp [Work.kind, specDropDuringSync, SubmissionCall.workKind]

/-- Unaggregated-attestation submission at concrete inputs (scenario S1 of
the spec: subnet 3, should-import true, seen timestamp 12345). -/
def attestationCall : SubmissionCall :=
  .unaggregatedAttestation 10 11 ⟨⟨42⟩⟩ 3 true 12345

/-- Envelope the sample attestation submission builds. -/
def attestationEnvelope : BeaconWorkEvent where
  drop_during_sync := true
  work := Work.GossipAttestation
    { message_id := 10, peer_id := 11, attestation := ⟨⟨42⟩⟩,
      subnet_id := 3, should_import := true, seen_timestamp := 12345 }

/-- C2 witness: the fidelity theorem applied to the concrete attestation
submission on the sample facade state. -/
theorem drop_during_sync_fidelity_witness :
    attestationEnvelope.drop_during_sync
        = specDropDuringSync attestationEnvelope.work.kind
    ∧ attestationEnvelope.work.kind = attestationCall.workKind :=
  drop_during_sync_fidelity sampleProcessor attestationCall attestationEnvelope
    (show attestationEnvelope ∈ [attestationEnvelope] from List.mem_singleton.mpr rfl)

/-- C3: submitting RpcBlobs with a sidecar list whose non-empty count is
zero returns success and sends nothing; with count at least one the call
performs exactly one try-send of an envelope of kind RpcBlobs, so on
success exactly one such envelope is delivered, and on rejection none is
delivered and the envelope carried back has kind RpcBlobs. -/
theorem rpc_blobs_zero_short_circuit (self : NetworkBeaconProcessor)
    (block_root : Hash256) (blobs : FixedBlobSidecarList)
    (seen_timestamp : Duration) (process_type : BlockProcessType) :
    ((List.filter (fun b => b.isSome) blobs).length = 0 →
       self.send_rpc_blobs block_root blobs seen_timestamp process_type
         = (.ok (), self))
    ∧ (1 ≤ (List.filter (fun b => b.isSome) blobs).length →
       ((self.send_rpc_blobs block_root blobs seen_timestamp process_type).1
            = .ok () →
          ∃ env, newEnvelopes self
              (self.send_rpc_blobs block_root blobs seen_timestamp process_type).2
              = [env]
            ∧ env.work.kind = WorkKind.RpcBlobs)
       ∧ (∀ e, (self.send_rpc_blobs block_root blobs seen_timestamp process_type).1
            = .error e →
          newEnvelopes self
              (self.send_rpc_blobs block_root blobs seen_timestamp process_type).2
              = []
            ∧ e.envelope.work.kind = WorkKind.RpcBlobs)) := by
  constructor
  · intro h0
    simp [NetworkBeaconProcessor.send_rpc_blobs, h0]
  · intro h1
    have h0 : ¬ (List.filter (fun b => b.isSome) blobs).length = 0 := by omega
    have hs : self.send_rpc_blobs block_root blobs seen_timestamp process_type
        = self.try_send
            { drop_during_sync := false,
              work := Work.RpcBlobs block_root blobs seen_timestamp process_type } := by
      simp [NetworkBeaconProcessor.send_rpc_blobs, h0]
    rw [hs]
    rcases NetworkBeaconProcessor.try_send_cases self
        { drop_during_sync := false,
          work := Work.RpcBlobs block_root blobs seen_timestamp process_type } with
      ⟨hok, hq, -, -⟩ | ⟨e, herr, hsnd, he⟩
    · refine ⟨fun _ => ⟨{ drop_during_sync := false, work := Work.RpcBlobs block_root blobs seen_timestamp process_type }, ?_, rfl⟩, fun e h => ?_⟩
      · simp [newEnvelopes, hq, List.drop_left]
      · rw [hok] at h
        exact Except.noConfusion h
    · refine ⟨fun h => ?_, fun e1 h => ?_⟩
      · rw [herr] at h
        exact Except.noConfusion h
      · rw [herr] at h
        injection h with h2
        subst h2
        refine ⟨by simp [newEnvelopes, hsnd, List.drop_length], ?_⟩
        rw [he]
        rfl

/-- Sidecar list with exactly one non-empty entry. -/
def oneBlobList : FixedBlobSidecarList := [some 5, none, none, none, none, none]

/-- C3 witness: the short-circuit theorem applied at the all-empty list
(returns success, sends nothing) and at a one-blob list (delivers exactly
one RpcBlobs envelope) on the sample facade state. -/
theorem rpc_blobs_zero_short_circuit_witness :
    sampleProcessor.send_rpc_blobs 0 emptyBlobs 0 0 = (.ok (), sampleProcessor)
    ∧ ∃ env, newEnvelopes sampleProcessor
          (sampleProcessor.send_rpc_blobs 0 oneBlobList 0 0).2 = [env]
        ∧ env.work.kind = WorkKind.RpcBlobs :=
  ⟨(rpc_blobs_zero_short_circuit sampleProcessor 0 emptyBlobs 0 0).1 rfl,
   ((rpc_blobs_zero_short_circuit sampleProcessor 0 oneBlobList 0 0).2
      (by decide)).1 rfl⟩

/-- C4: every envelope built by a chain-segment submission has work kind
ChainSegmentBackfill when the process identity is a back-sync batch
identifier and ChainSegment otherwise, and in both cases its
drop_during_sync flag is false. -/
theorem chain_segment_variant_selection (self : NetworkBeaconProcessor)
    (process_id : ChainSegmentProcessId) (blocks : List RpcBlockPayload)
    (env : BeaconWorkEvent)
    (h : env ∈ observedEnvelopes self (.chainSegment process_id blocks)) :
    env.work.kind
      = (match process_id with
         | ChainSegmentProcessId.BackSyncBatchId _ => WorkKind.ChainSegmentBackfill
         | _ => WorkKind.ChainSegment)
    ∧ env.drop_during_sync = false := by
  cases process_id <;>
    (simp only [observedEnvelopes, submit,
       NetworkBeaconProcessor.send_chain_segment] at h
     rw [NetworkBeaconProcessor.observed_try_send] at h
     simp only [List.mem_singleton] at h
     subst h
     simp [Work.kind])

/-- Chain-segment closure captured for a back-sync batch submission at
concrete inputs (scenario S3 of the spec). -/
def backfillSegmentFn : Bool → ChainSegmentCall := fun is_syncing_finalized =>
  ChainSegmentCall.mk (.BackSyncBatchId 7) [1]
    (if is_syncing_finalized then NotifyExecutionLayer.No else NotifyExecutionLayer.Yes)

/-- Envelope the back-sync chain-segment submission builds. -/
def backfillEnvelope : BeaconWorkEvent where
  drop_during_sync := false
  work := Work.ChainSegmentBackfill backfillSegmentFn

/-- C4 witness: the variant-selection theorem applied to a back-sync batch
submission on the sample facade state. -/
theorem chain_segment_variant_selection_witness :
    backfillEnvelope.work.kind = WorkKind.ChainSegmentBackfill
    ∧ backfillEnvelope.drop_during_sync = false :=
  chain_segment_variant_selection sampleProcessor (.BackSyncBatchId 7) [1]
    backfillEnvelope
    (show backfillEnvelope ∈ [backfillEnvelope] from List.mem_singleton.mpr rfl)

/-- C8: the closure carried by every chain-segment envelope, when it
executes, reads the sync-state snapshot and passes the execution-layer
notification flag No to segment processing exactly when the node is syncing
finalized history at that moment, and Yes otherwise; it also hands over the
submitted process identity and blocks unchanged. -/
theorem chain_segment_notify_execution_layer (self : NetworkBeaconProcessor)
    (process_id : ChainSegmentProcessId) (blocks : List RpcBlockPayload)
    (env : BeaconWorkEvent)
    (h : env ∈ observedEnvelopes self (.chainSegment process_id blocks)) :
    ∃ f, env.work.chainSegmentFn = some f
      ∧ (∀ is_syncing_finalized,
          ((f is_syncing_finalized).notify_execution_layer = NotifyExecutionLayer.No
            ↔ is_syncing_finalized = true))
      ∧ (∀ is_syncing_finalized,
          (f is_syncing_finalized).process_id = process_id
          ∧ (f is_syncing_finalized).blocks = blocks) := by
  cases process_id <;>
    (simp only [observedEnvelopes, submit,
       NetworkBeaconProcessor.send_chain_segment] at h
     rw [NetworkBeaconProcessor.observed_try_send] at h
     simp only [List.mem_singleton] at h
     subst h
     refine ⟨_, rfl, fun b => ?_, fun b => ⟨rfl, rfl⟩⟩
     cases b <;> simp [Work.chainSegmentFn])

/-- Chain-segment closure captured for a range-sync batch submission at
concrete inputs. -/
def rangeSegmentFn : Bool → ChainSegmentCall := fun is_syncing_finalized =>
  ChainSegmentCall.mk (.RangeBatchId 7) [1]
    (if is_syncing_finalized then NotifyExecutionLayer.No else NotifyExecutionLayer.Yes)

/-- Envelope the range-sync chain-segment submission builds. -/
def rangeEnvelope : BeaconWorkEvent where
  drop_during_sync := false
  work := Work.ChainSegment rangeSegmentFn

/-- C8 witness: the notification-flag theorem applied to a range-sync
chain-segment submission on the sample facade state, evaluated at both
sync-state snapshots. -/
theorem chain_segment_notify_execution_layer_witness :
    ∃ f, rangeEnvelope.work.chainSegmentFn = some f
      ∧ ((f true).notify_execution_layer = NotifyExecutionLayer.No ↔ true = true)
      ∧ ((f false).notify_execution_layer = NotifyExecutionLayer.No ↔ false = true) := by
  obtain ⟨f, hf, hiff, -⟩ := chain_segment_notify_execution_layer sampleProcessor
    (.RangeBatchId 7) [1] rangeEnvelope
    (show rangeEnvelope ∈ [rangeEnvelope] from List.mem_singleton.mpr rfl)
  exact ⟨f, hf, hiff true, hiff false⟩

/-- C5: with d the configured lookup delay and e the seconds elapsed since
the current slot started, the scheduler's first wake is
now + duration_to_next_slot + d when e exceeds d and now + (d - e)
otherwise; when the slot clock yields no value the first wake is now and a
critical-level message is logged. -/
theorem scheduler_first_wake (now : Instant) (delay : Duration)
    (duration_to_next_slot seconds_elapsed : Duration) :
    (seconds_elapsed > delay →
      (delayedLookupIntervalStart now delay (some duration_to_next_slot)
          (some seconds_elapsed)).1 = now + duration_to_next_slot + delay)
    ∧ (seconds_elapsed ≤ delay →
      (delayedLookupIntervalStart now delay (some duration_to_next_slot)
          (some seconds_elapsed)).1 = now + (delay - seconds_elapsed))
    ∧ (delayedLookupIntervalStart now delay none none).1 = now
    ∧ (delayedLookupIntervalStart now delay none none).2 = [LogLevel.crit]
    ∧ (delayedLookupIntervalStart now delay (some duration_to_next_slot)
        (some seconds_elapsed)).2 = [] := by
  refine ⟨fun h => ?_, fun h => ?_, rfl, rfl, by simp [delayedLookupIntervalStart]⟩
  · simp [delayedLookupIntervalStart, h, Nat.add_assoc]
  · have h2 : ¬ seconds_elapsed > delay := Nat.not_lt.mpr h
    simp [delayedLookupIntervalStart, h2]

/-- C5 witness: the first-wake theorem evaluated in both slot-clock regimes
at concrete values. -/
theorem scheduler_first_wake_witness :
    (delayedLookupIntervalStart 100 1 (some 10) (some 2)).1 = 100 + 10 + 1
    ∧ (delayedLookupIntervalStart 100 2 (some 10) (some 1)).1 = 100 + (2 - 1) :=
  ⟨(scheduler_first_wake 100 1 10 2).1 (by decide),
   (scheduler_first_wake 100 2 10 1).2.1 (by decide)⟩

/-- Full-channel rejection shape shared by every submission operation that
is a single unconditional try-send; `p` and `q` stand for the
short-circuit discriminator of the claim statement, with `q` impossible for
these operations. -/
theorem submit_full_generic (self : NetworkBeaconProcessor) (event : BeaconWorkEvent)
    {p q : Prop} (hnq : ¬ q)
    (hfull : ¬ self.beacon_processor_send.queue.length
        < self.beacon_processor_send.capacity)
    (hopen : self.beacon_processor_send.closed = false) :
    (p → ∃ env, (self.try_send event).1 = .error (.full env)
       ∧ (self.try_send event).2 = self)
    ∧ (q → (self.try_send event).1 = .ok () ∧ (self.try_send event).2 = self) := by
  have h := self.try_send_full event hfull hopen
  exact ⟨fun _ => ⟨event, by rw [h], by rw [h]⟩, fun hq => absurd hq hnq⟩

/-- C6 (amended): when the beacon-processor channel is pre-filled to
capacity and open, every submission other than an RpcBlobs submission with
zero non-empty sidecar entries returns the Overflow error with reason Full,
carrying the unconsumed envelope back and leaving the state unchanged; the
empty RpcBlobs submission instead returns success. The only rejection
reasons a submission can return are Full and Closed, and the rejection is
returned to the caller with the state unchanged rather than logged or
retried. -/
theorem error_typing (self : NetworkBeaconProcessor) (call : SubmissionCall)
    (hfull : ¬ self.beacon_processor_send.queue.length
        < self.beacon_processor_send.capacity)
    (hopen : self.beacon_processor_send.closed = false) :
    (call.isEmptyRpcBlobs = false →
       ∃ env, (submit self call).1 = .error (.full env)
         ∧ (submit self call).2 = self)
    ∧ (call.isEmptyRpcBlobs = true →
       (submit self call).1 = .ok () ∧ (submit self call).2 = self)
    ∧ (∀ e, (submit self call).1 = .error e →
       (∃ env, e = .full env) ∨ (∃ env, e = .closed env)) := by
  have h3 : ∀ e : TrySendError BeaconWorkEvent,
      (∃ env, e = .full env) ∨ (∃ env, e = .closed env) := by
    intro e
    cases e with
    | full v => exact Or.inl ⟨v, rfl⟩
    | closed v => exact Or.inr ⟨v, rfl⟩
  have pair : (call.isEmptyRpcBlobs = false →
       ∃ env, (submit self call).1 = .error (.full env)
         ∧ (submit self call).2 = self)
    ∧ (call.isEmptyRpcBlobs = true →
       (submit self call).1 = .ok () ∧ (submit self call).2 = self) := by
    cases call
    case rpcBlobs block_root blobs seen_timestamp process_type =>
      by_cases h0 : (List.filter (fun b => b.isSome) blobs).length = 0
      · have hs : submit self (.rpcBlobs block_root blobs seen_timestamp process_type)
            = (.ok (), self) := by
          simp [submit, NetworkBeaconProcessor.send_rpc_blobs, h0]
        have hemp : (SubmissionCall.rpcBlobs block_root blobs seen_timestamp
            process_type).isEmptyRpcBlobs = true := by
          simp [SubmissionCall.isEmptyRpcBlobs, h0]
        rw [hs, hemp]
        exact ⟨fun hfalse => Bool.noConfusion hfalse, fun _ => ⟨rfl, rfl⟩⟩
      · have hs : submit self (.rpcBlobs block_root blobs seen_timestamp process_type)
            = self.try_send
                { drop_during_sync := false,
                  work := Work.RpcBlobs block_root blobs seen_timestamp process_type } := by
          simp [submit, NetworkBeaconProcessor.send_rpc_blobs, h0]
        have hemp : (SubmissionCall.rpcBlobs block_root blobs seen_timestamp
            process_type).isEmptyRpcBlobs = false := by
          simp [SubmissionCall.isEmptyRpcBlobs, h0]
        rw [hs, hemp]
        exact submit_full_generic self _ (by simp) hfull hopen
    all_goals
      simp only [submit, NetworkBeaconProcessor.send_unaggregated_attestation,
        NetworkBeaconProcessor.send_aggregated_attestation,
        NetworkBeaconProcessor.send_gossip_beacon_block,
        NetworkBeaconProcessor.send_gossip_blob_sidecar,
        NetworkBeaconProcessor.send_gossip_sync_signature,
        NetworkBeaconProcessor.send_gossip_sync_contribution,
        NetworkBeaconProcessor.send_gossip_voluntary_exit,
        NetworkBeaconProcessor.send_gossip_proposer_slashing,
        NetworkBeaconProcessor.send_gossip_light_client_finality_update,
        NetworkBeaconProcessor.send_gossip_light_client_optimistic_update,
        NetworkBeaconProcessor.send_gossip_attester_slashing,
        NetworkBeaconProcessor.send_gossip_bls_to_execution_change,
        NetworkBeaconProcessor.send_rpc_beacon_block,
        NetworkBeaconProcessor.send_chain_segment,
        NetworkBeaconProcessor.send_status_message,
        NetworkBeaconProcessor.send_blocks_by_range_request,
        NetworkBeaconProcessor.send_blocks_by_roots_request,
        NetworkBeaconProcessor.send_blobs_by_range_request,
        NetworkBeaconProcessor.send_blobs_by_roots_request,
        NetworkBeaconProcessor.send_lightclient_bootstrap_request,
        SubmissionCall.isEmptyRpcBlobs]
    all_goals exact submit_full_generic self _ (by simp) hfull hopen
  exact ⟨pair.1, pair.2, fun e _ => h3 e⟩

/-- Work envelope used to pre-fill the channel at concrete inputs. -/
def dummyEnvelope : BeaconWorkEvent where
  drop_during_sync := false
  work := Work.Status 0 0

/-- Facade state whose beacon-processor channel is pre-filled to capacity
and open. -/
def fullProcessor : NetworkBeaconProcessor where
  beacon_processor_send := { capacity := 1, queue := [dummyEnvelope], closed := false }
  network_tx := { queue := [], closed := false }
  sync_tx := { queue := [], closed := false }

/-- C6 counterexample: on a channel pre-filled to capacity, an RpcBlobs
submission with an all-empty sidecar list returns success rather than the
Full rejection, refuting the claim that every submission returns the
Overflow error there. -/
theorem error_typing_counterexample :
    ¬ fullProcessor.beacon_processor_send.queue.length
        < fullProcessor.beacon_processor_send.capacity
    ∧ fullProcessor.beacon_processor_send.closed = false
    ∧ (submit fullProcessor emptyBlobsCall).1 = .ok () :=
  ⟨by decide, rfl, rfl⟩

/-- C6 witness: the amended error-typing theorem applied to a voluntary-exit
submission on the pre-filled channel yields the Full rejection carrying the
envelope back with the state unchanged. -/
theorem error_typing_witness :
    ∃ env, (submit fullProcessor exitCall).1 = .error (.full env)
      ∧ (submit fullProcessor exitCall).2 = fullProcessor :=
  (error_typing fullProcessor exitCall (by decide) rfl).1 rfl

/-- C7: a scheduler tick at which the slot clock yields no slot logs an
error, issues no delayed-lookup messages and leaves the registry unchanged;
the loop then proceeds, handing the untouched registry to the remaining
ticks. -/
theorem scheduler_tick_skip (registry : DelayedLookupRegistry)
    (rest : List (Option Slot)) :
    schedulerTick none registry = (registry, [], [LogLevel.error])
    ∧ schedulerRun (none :: rest) registry
        = ((schedulerRun rest registry).1,
           (schedulerRun rest registry).2.1,
           LogLevel.error :: (schedulerRun rest registry).2.2) := by
  refine ⟨rfl, ?_⟩
  rcases h : schedulerRun rest registry with ⟨r2, m2, l2⟩
  simp [schedulerRun, schedulerTick, h]

/-- C9: the egress helpers to the sync and network channels never panic: for
every facade state and message they return normally; on a closed channel
they log one debug-level message, discard the error and leave the state
unchanged; on an open channel they append the message and log nothing. -/
theorem egress_helpers_no_panic (self : NetworkBeaconProcessor)
    (sync_message : SyncMessage) (network_message : NetworkMessage) :
    (∃ v, self.send_sync_message sync_message = .ok v)
    ∧ (∃ v, self.send_network_message network_message = .ok v)
    ∧ (self.sync_tx.closed = true →
        self.send_sync_message sync_message = .ok (self, [LogLevel.debug]))
    ∧ (self.sync_tx.closed = false →
        self.send_sync_message sync_message
          = .ok ({ self with
                   sync_tx := { self.sync_tx with
                                queue := self.sync_tx.queue ++ [sync_message] } }, []))
    ∧ (self.network_tx.closed = true →
        self.send_network_message network_message = .ok (self, [LogLevel.debug]))
    ∧ (self.network_tx.closed = false →
        self.send_network_message network_message
          = .ok ({ self with
                   network_tx := { self.network_tx with
                                   queue := self.network_tx.queue
                                     ++ [network_message] } }, [])) := by
  cases hs2 : self.sync_tx.closed <;> cases hn2 : self.network_tx.closed <;>
    simp [NetworkBeaconProcessor.send_sync_message,
      NetworkBeaconProcessor.send_network_message, UnboundedChannel.send,
      exceptUnwrapOrElse, Except.map, hs2, hn2]

/-- Facade state whose outbound sync and network channels are closed. -/
def closedEgressProcessor : NetworkBeaconProcessor where
  beacon_processor_send := { capacity := 4, queue := [], closed := false }
  network_tx := { queue := [], closed := true }
  sync_tx := { queue := [], closed := true }

/-- C9 witness: both egress helpers applied on closed outbound channels
return normally with one debug log and the state unchanged. -/
theorem egress_helpers_no_panic_witness :
    closedEgressProcessor.send_sync_message (SyncMessage.Other 0)
      = .ok (closedEgressProcessor, [LogLevel.debug])
    ∧ closedEgressProcessor.send_network_message 0
      = .ok (closedEgressProcessor, [LogLevel.debug]) :=
  ⟨(egress_helpers_no_panic closedEgressProcessor (SyncMessage.Other 0) 0).2.2.1 rfl,
   (egress_helpers_no_panic closedEgressProcessor (SyncMessage.Other 0) 0).2.2.2.2.1 rfl⟩

/-- Closed-channel rejection shape shared by every submission operation that
is a single unconditional try-send; `q` stands for the short-circuit
discriminator of the claim statement, impossible for these operations. -/
theorem submit_closed_generic (self : NetworkBeaconProcessor)
    (event : BeaconWorkEvent) {q : Prop} (hnq : ¬ q)
    (hclosed : self.beacon_processor_send.closed = true) :
    ((self.try_send event).1 = .ok () ↔ q) := by
  have h := self.try_send_closed event hclosed
  refine ⟨fun he => ?_, fun hq => absurd hq hnq⟩
  rw [h] at he
  simp at he

/-- C10: an RpcBlobs submission whose sidecar list has zero non-empty
entries returns success without touching the beacon-processor channel, for
every channel state including full or closed; and on a closed channel it is
the only submission that can return success. -/
theorem empty_rpc_blobs_bypasses_channel (self : NetworkBeaconProcessor)
    (block_root : Hash256) (blobs : FixedBlobSidecarList)
    (seen_timestamp : Duration) (process_type : BlockProcessType)
    (h0 : (List.filter (fun b => b.isSome) blobs).length = 0) :
    self.send_rpc_blobs block_root blobs seen_timestamp process_type
      = (.ok (), self)
    ∧ (∀ call : SubmissionCall, self.beacon_processor_send.closed = true →
        ((submit self call).1 = .ok () ↔ call.isEmptyRpcBlobs = true)) := by
  refine ⟨by simp [NetworkBeaconProcessor.send_rpc_blobs, h0], fun call hclosed => ?_⟩
  cases call
  case rpcBlobs br bl ts pt =>
    by_cases hb : (List.filter (fun b => b.isSome) bl).length = 0
    · have hs : submit self (.rpcBlobs br bl ts pt) = (.ok (), self) := by
        simp [submit, NetworkBeaconProcessor.send_rpc_blobs, hb]
      rw [hs]
      simp [SubmissionCall.isEmptyRpcBlobs, hb]
    · have hs : submit self (.rpcBlobs br bl ts pt)
          = self.try_send
              { drop_during_sync := false, work := Work.RpcBlobs br bl ts pt } := by
        simp [submit, NetworkBeaconProcessor.send_rpc_blobs, hb]
      rw [hs]
      exact submit_closed_generic self _
        (by simp [SubmissionCall.isEmptyRpcBlobs, hb]) hclosed
  all_goals
    simp only [submit, NetworkBeaconProcessor.send_unaggregated_attestation,
      NetworkBeaconProcessor.send_aggregated_attestation,
      NetworkBeaconProcessor.send_gossip_beacon_block,
      NetworkBeaconProcessor.send_gossip_blob_sidecar,
      NetworkBeaconProcessor.send_gossip_sync_signature,
      NetworkBeaconProcessor.send_gossip_sync_contribution,
      NetworkBeaconProcessor.send_gossip_voluntary_exit,
      NetworkBeaconProcessor.send_gossip_proposer_slashing,
      NetworkBeaconProcessor.send_gossip_light_client_finality_update,
      NetworkBeaconProcessor.send_gossip_light_client_optimistic_update,
      NetworkBeaconProcessor.send_gossip_attester_slashing,
      NetworkBeaconProcessor.send_gossip_bls_to_execution_change,
      NetworkBeaconProcessor.send_rpc_beacon_block,
      NetworkBeaconProcessor.send_chain_segment,
      NetworkBeaconProcessor.send_status_message,
      NetworkBeaconProcessor.send_blocks_by_range_request,
      NetworkBeaconProcessor.send_blocks_by_roots_request,
      NetworkBeaconProcessor.send_blobs_by_range_request,
      NetworkBeaconProcessor.send_blobs_by_roots_request,
      NetworkBeaconProcessor.send_lightclient_bootstrap_request,
      SubmissionCall.isEmptyRpcBlobs]
  all_goals exact submit_closed_generic self _ (by simp) hclosed

/-- Facade state whose beacon-processor channel is closed. -/
def closedChannelProcessor : NetworkBeaconProcessor where
  beacon_processor_send := { capacity := 4, queue := [], closed := true }
  network_tx := { queue := [], closed := false }
  sync_tx := { queue := [], closed := false }

/-- C10 witness: on a closed beacon-processor channel, the empty RpcBlobs
submission succeeds with the state untouched, while a voluntary-exit
submission cannot succeed. -/
theorem empty_rpc_blobs_bypasses_channel_witness :
    closedChannelProcessor.send_rpc_blobs 0 emptyBlobs 0 0
      = (.ok (), closedChannelProcessor)
    ∧ ((submit closedChannelProcessor exitCall).1 = .ok ()
        ↔ exitCall.isEmptyRpcBlobs = true) :=
  ⟨(empty_rpc_blobs_bypasses_channel closedChannelProcessor 0 emptyBlobs 0 0 rfl).1,
   (empty_rpc_blobs_bypasses_channel closedChannelProcessor 0 emptyBlobs 0 0 rfl).2
     exitCall rfl⟩
